import Mathlib

/-!
Verification of the message dispatch and resilience core of the
`go_integration` worker: the retry executors, the payload codec
(`encoding/json` marshal/unmarshal of `EmailPayload`), the payload
validators, the email handlers and the Pub/Sub receive wrapper.

Go `error` values are modelled as `Option String` (`none` = Go `nil`,
`some msg` = a non-nil error whose `Error()` text is `msg`); machine
side effects that the code performs (invoking the operation, sleeping
between attempts, issuing `Ack`/`Nack`) are recorded in explicit trace
structures so that counting claims can be stated.  Structured logging
(`slog`/`log`) has no effect on control flow or results in the source
and is elided.
-/

/-- Go `context.Context` as far as this code base observes it.  None of the
functions modelled below ever reads its context (no `ctx.Done()` /
`ctx.Err()` calls occur in `retry.go`, `queue.go` or `verification.go`),
so the model only needs distinguishable values. -/
inductive GoContext where
  | background
  | canceled
deriving DecidableEq

/-- RetryConfig from src/internal/email/retry.go lines 17-20.
`Delay` is in nanoseconds (Go `time.Duration`). -/
structure RetryConfig where
  MaxAttempts : Nat
  Delay : Nat
deriving DecidableEq

/-- DefaultRetryConfig from src/internal/email/retry.go lines 23-28:
3 attempts, 2 seconds. -/
def DefaultRetryConfig : RetryConfig :=
  { MaxAttempts := 3, Delay := 2000000000 }

/-- Observable behaviour of one retry-executor invocation: how many times
the operation was invoked, the duration of each inter-attempt sleep in
order, and the Go error value returned to the caller. -/
structure RetryTrace (ε : Type) where
  calls : Nat
  waits : List Nat
  result : Option ε
deriving DecidableEq

/-- Loop of ExecuteWithRetry, src/internal/email/retry.go lines 34-57.
`fn i` is the outcome of the i-th invocation of the operation (the Go
closure is stateful, so successive calls may differ).  `attempt` is the
Go loop counter; the loop runs while `attempt <= maxAttempts`.  A `none`
outcome returns nil at line 41; after a failing last attempt the loop
exits and line 57 returns nil; line 50 sleeps `delay` before the next
attempt. -/
def executeWithRetryLoop (fn : Nat → Option ε) (delay maxAttempts attempt : Nat) :
    RetryTrace ε :=
  if attempt > maxAttempts then
    { calls := 0, waits := [], result := none }
  else
    match fn attempt with
    | none => { calls := 1, waits := [], result := none }
    | some _ =>
      if attempt < maxAttempts then
        let rest := executeWithRetryLoop fn delay maxAttempts (attempt + 1)
        { calls := rest.calls + 1, waits := delay :: rest.waits, result := rest.result }
      else
        { calls := 1, waits := [], result := none }
termination_by maxAttempts + 1 - attempt

/-- ExecuteWithRetry from src/internal/email/retry.go lines 31-58.  The
`ctx` parameter is accepted and never read, exactly as in the source;
the `logger` parameter is elided (logging only). -/
def ExecuteWithRetry (ctx : GoContext) (config : RetryConfig) (fn : Nat → Option ε) :
    RetryTrace ε :=
  match ctx with
  | _ => executeWithRetryLoop fn config.Delay config.MaxAttempts 1

/-- Loop of handlers.Retry, src/internal/handlers/queue.go lines 33-60.
Identical control flow to `executeWithRetryLoop`; transcribed separately
because the source duplicates it. -/
def retryHandlersLoop (fn : Nat → Option ε) (delay maxRetries attempt : Nat) :
    RetryTrace ε :=
  if attempt > maxRetries then
    { calls := 0, waits := [], result := none }
  else
    match fn attempt with
    | none => { calls := 1, waits := [], result := none }
    | some _ =>
      if attempt < maxRetries then
        let rest := retryHandlersLoop fn delay maxRetries (attempt + 1)
        { calls := rest.calls + 1, waits := delay :: rest.waits, result := rest.result }
      else
        { calls := 1, waits := [], result := none }
termination_by maxRetries + 1 - attempt

/-- handlers.Retry from src/internal/handlers/queue.go lines 30-61.
Returns nil to acknowledge the message even on final failure. -/
def Retry (ctx : GoContext) (maxRetries delay : Nat) (fn : Nat → Option ε) :
    RetryTrace ε :=
  match ctx with
  | _ => retryHandlersLoop fn delay maxRetries 1

namespace EmailQueueHandler

/-- Loop of (*EmailQueueHandler).retry, src/internal/handlers/verification.go
lines 74-107 (second document of the file).  Again a duplicate of the same
control flow. -/
def retryLoop (fn : Nat → Option ε) (delay maxRetries attempt : Nat) :
    RetryTrace ε :=
  if attempt > maxRetries then
    { calls := 0, waits := [], result := none }
  else
    match fn attempt with
    | none => { calls := 1, waits := [], result := none }
    | some _ =>
      if attempt < maxRetries then
        let rest := retryLoop fn delay maxRetries (attempt + 1)
        { calls := rest.calls + 1, waits := delay :: rest.waits, result := rest.result }
      else
        { calls := 1, waits := [], result := none }
termination_by maxRetries + 1 - attempt

/-- (*EmailQueueHandler).retry from src/internal/handlers/verification.go
lines 71-108.  `operation` is only logged in the source, hence unused. -/
def retry (ctx : GoContext) (maxRetries delay : Nat) (fn : Nat → Option ε)
    (operation : String) : RetryTrace ε :=
  match ctx, operation with
  | _, _ => retryLoop fn delay maxRetries 1

end EmailQueueHandler

/-! Basic lemmas about the retry loops. -/

lemma executeWithRetryLoop_result_none (fn : Nat → Option ε) (delay maxAttempts attempt : Nat) :
    (executeWithRetryLoop fn delay maxAttempts attempt).result = none := by
  induction attempt using executeWithRetryLoop.induct fn delay maxAttempts with
  | case1 a h =>
    rw [executeWithRetryLoop]
    simp [h]
  | case2 a h hfn =>
    rw [executeWithRetryLoop]
    simp [h, hfn]
  | case3 a h v hfn hlt ih =>
    rw [executeWithRetryLoop]
    simp [h, hfn, hlt, ih]
  | case4 a h v hfn hge =>
    rw [executeWithRetryLoop]
    simp [h, hfn, hge]

lemma retryHandlersLoop_eq_executeWithRetryLoop (fn : Nat → Option ε)
    (delay maxRetries attempt : Nat) :
    retryHandlersLoop fn delay maxRetries attempt =
      executeWithRetryLoop fn delay maxRetries attempt := by
  induction attempt using retryHandlersLoop.induct fn delay maxRetries with
  | case1 a h =>
    rw [retryHandlersLoop, executeWithRetryLoop]
    simp [h]
  | case2 a h hfn =>
    rw [retryHandlersLoop, executeWithRetryLoop]
    simp [h, hfn]
  | case3 a h v hfn hlt ih =>
    rw [retryHandlersLoop, executeWithRetryLoop]
    simp [h, hfn, hlt, ih]
  | case4 a h v hfn hge =>
    rw [retryHandlersLoop, executeWithRetryLoop]
    simp [h, hfn, hge]

lemma emailQueueHandlerRetryLoop_eq (fn : Nat → Option ε) (delay maxRetries attempt : Nat) :
    EmailQueueHandler.retryLoop fn delay maxRetries attempt =
      executeWithRetryLoop fn delay maxRetries attempt := by
  induction attempt using EmailQueueHandler.retryLoop.induct fn delay maxRetries with
  | case1 a h =>
    rw [EmailQueueHandler.retryLoop, executeWithRetryLoop]
    simp [h]
  | case2 a h hfn =>
    rw [EmailQueueHandler.retryLoop, executeWithRetryLoop]
    simp [h, hfn]
  | case3 a h v hfn hlt ih =>
    rw [EmailQueueHandler.retryLoop, executeWithRetryLoop]
    simp [h, hfn, hlt, ih]
  | case4 a h v hfn hge =>
    rw [EmailQueueHandler.retryLoop, executeWithRetryLoop]
    simp [h, hfn, hge]

lemma retryHandlersLoop_result_none (fn : Nat → Option ε) (delay maxRetries attempt : Nat) :
    (retryHandlersLoop fn delay maxRetries attempt).result = none := by
  rw [retryHandlersLoop_eq_executeWithRetryLoop]
  exact executeWithRetryLoop_result_none fn delay maxRetries attempt

lemma Retry_result_none (ctx : GoContext) (maxRetries delay : Nat) (fn : Nat → Option ε) :
    (Retry ctx maxRetries delay fn).result = none := by
  cases ctx <;> exact retryHandlersLoop_result_none fn delay maxRetries 1

lemma executeWithRetryLoop_exhaust (fn : Nat → Option ε) (delay m : Nat) :
    ∀ a, a ≤ m → (∀ i, a ≤ i → i ≤ m → fn i ≠ none) →
      executeWithRetryLoop fn delay m a =
        { calls := m + 1 - a, waits := List.replicate (m - a) delay, result := none } := by
  intro a
  induction a using executeWithRetryLoop.induct fn delay m with
  | case1 a h =>
    intro ha _
    omega
  | case2 a h hfn =>
    intro ha hfail
    exact absurd hfn (hfail a le_rfl ha)
  | case3 a h v hfn hlt ih =>
    intro ha hfail
    rw [executeWithRetryLoop]
    simp only [gt_iff_lt, not_lt.mpr (le_of_not_lt h), if_false, hfn, hlt, if_true]
    rw [ih (by omega) (fun i h1 h2 => hfail i (by omega) h2)]
    have h2 : m - a = (m - (a + 1)) + 1 := by omega
    simp only [RetryTrace.mk.injEq]
    refine ⟨by omega, ?_, trivial⟩
    rw [h2, List.replicate_succ]
  | case4 a h v hfn hge =>
    intro ha hfail
    have ham : a = m := by omega
    subst ham
    rw [executeWithRetryLoop]
    simp [h, hfn, hge]

lemma executeWithRetryLoop_firstSuccess (fn : Nat → Option ε) (delay m s : Nat)
    (hsm : s ≤ m) (hs : fn s = none) :
    ∀ a, a ≤ s → (∀ i, a ≤ i → i < s → fn i ≠ none) →
      executeWithRetryLoop fn delay m a =
        { calls := s + 1 - a, waits := List.replicate (s - a) delay, result := none } := by
  intro a
  induction a using executeWithRetryLoop.induct fn delay m with
  | case1 a h =>
    intro ha _
    omega
  | case2 a h hfn =>
    intro ha hfail
    have has : a = s := by
      by_contra hne
      exact hfail a le_rfl (by omega) hfn
    subst has
    rw [executeWithRetryLoop]
    simp [h, hfn]
  | case3 a h v hfn hlt ih =>
    intro ha hfail
    have has : a < s := by
      rcases Nat.lt_or_ge a s with hc | hc
      · exact hc
      · have : a = s := by omega
        rw [this, hs] at hfn
        exact absurd hfn (by simp)
    rw [executeWithRetryLoop]
    simp only [gt_iff_lt, not_lt.mpr (le_of_not_lt h), if_false, hfn, hlt, if_true]
    rw [ih (by omega) (fun i h1 h2 => hfail i (by omega) h2)]
    have h2 : s - a = (s - (a + 1)) + 1 := by omega
    simp only [RetryTrace.mk.injEq]
    refine ⟨by omega, ?_, trivial⟩
    rw [h2, List.replicate_succ]
  | case4 a h v hfn hge =>
    intro ha hfail
    have has : a < s := by
      rcases Nat.lt_or_ge a s with hc | hc
      · exact hc
      · have : a = s := by omega
        rw [this, hs] at hfn
        exact absurd hfn (by simp)
    omega

/-! Payload model (src/unnamed/part_009, package models) and the
`encoding/json` codec used by `ToJSON` / `FromJSON`. -/

/-- EmailPayload from src/unnamed/part_009 lines 9-13 (json tags
`to`, `subject`, `body`, declared in this order). -/
structure EmailPayload where
  To : String
  Subject : String
  Body : String
deriving DecidableEq

/-- ErrMissingRecipient from src/unnamed/part_010. -/
def ErrMissingRecipient : String := "recipient email is required"

/-- ErrMissingSubject from src/unnamed/part_010. -/
def ErrMissingSubject : String := "email subject is required"

/-- ErrMissingBody from src/unnamed/part_010. -/
def ErrMissingBody : String := "email body is required"

/-- (*ValidationError).Error from src/unnamed/part_010 lines 63-65. -/
def validationErrorText (field message : String) : String :=
  "validation error for field \x27" ++ field ++ "\x27: " ++ message

/-- (*EmailPayload).Validate from src/unnamed/part_009 lines 16-27. -/
def EmailPayload.Validate (e : EmailPayload) : Option String :=
  if e.To = "" then some ErrMissingRecipient
  else if e.Subject = "" then some ErrMissingSubject
  else if e.Body = "" then some ErrMissingBody
  else none

/-- VerificationEmailPayload from src/unnamed/part_009 lines 77-83
(fields To, Username, Token, Code, VerifyURL). -/
structure VerificationEmailPayload where
  To : String
  Username : String
  Token : String
  Code : String
  VerifyURL : String
deriving DecidableEq

/-- (*VerificationEmailPayload).Validate from src/unnamed/part_009
lines 86-98: recipient, then username, then code-or-url. -/
def VerificationEmailPayload.Validate (v : VerificationEmailPayload) : Option String :=
  if v.To = "" then some ErrMissingRecipient
  else if v.Username = "" then
    some (validationErrorText ("username") ("username is required"))
  else if v.Code = "" ∧ v.VerifyURL = "" then
    some (validationErrorText ("code_or_url") ("either verification code or verify_url is required"))
  else none

/-- (*VerificationEmailPayload).GenerateSubject from src/unnamed/part_009
lines 106-108: a fixed string, independent of the payload fields. -/
def VerificationEmailPayload.GenerateSubject (_v : VerificationEmailPayload) : String :=
  "Confirme sua conta - Verificação de Email"

/-- UserPayload from src/unnamed/part_010 lines 88-93. -/
structure UserPayload where
  ID : String
  Email : String
  Name : String
  Username : String
deriving DecidableEq

/-! The Go `encoding/json` string encoder, as invoked by `json.Marshal`
(escapeHTML = true). -/

/-- Lower-case hex digit, as appended by the encoder for `\u00XX` escapes. -/
def hexLowerDigit (n : Nat) : Char :=
  if n < 10 then Char.ofNat ('0'.toNat + n) else Char.ofNat ('a'.toNat + n - 10)

/-- Encoding of one character of a Go string by encoding/json
(HTML-escaping variant used by json.Marshal): `"` `\` and the control
characters are escaped (`\n` `\r` `\t` specially, other controls as
`\u00xx`); `<` `>` `&` and U+2028/U+2029 are escaped as `\uXXXX`; every
other character is emitted literally. -/
def encGoChar (c : Char) : List Char :=
  if c = '"' then ['\\', '"']
  else if c = '\\' then ['\\', '\\']
  else if c = '\n' then ['\\', 'n']
  else if c = '\r' then ['\\', 'r']
  else if c = '\t' then ['\\', 't']
  else if c.toNat < 0x20 then
    ['\\', 'u', '0', '0', hexLowerDigit (c.toNat / 16), hexLowerDigit (c.toNat % 16)]
  else if c = '<' then ['\\', 'u', '0', '0', '3', 'c']
  else if c = '>' then ['\\', 'u', '0', '0', '3', 'e']
  else if c = '&' then ['\\', 'u', '0', '0', '2', '6']
  else if c.toNat = 0x2028 then ['\\', 'u', '2', '0', '2', '8']
  else if c.toNat = 0x2029 then ['\\', 'u', '2', '0', '2', '9']
  else [c]

/-- Quoted JSON string literal produced by the encoder. -/
def encGoString (s : String) : List Char :=
  '"' :: (s.data.flatMap encGoChar ++ ['"'])

/-- Fixed characters `"to":` emitted before the first field. -/
def toKeyChars : List Char := ['"', 't', 'o', '"', ':']

/-- Fixed characters `,"subject":` emitted before the second field. -/
def subjectKeyChars : List Char := [',', '"', 's', 'u', 'b', 'j', 'e', 'c', 't', '"', ':']

/-- Fixed characters `,"body":` emitted before the third field. -/
def bodyKeyChars : List Char := [',', '"', 'b', 'o', 'd', 'y', '"', ':']

/-- Character image of `json.Marshal(e)`: one object, fields in struct
declaration order under their json tags. -/
def EmailPayload.toJsonChars (e : EmailPayload) : List Char :=
  '\x7b' :: (toKeyChars ++ encGoString e.To
    ++ subjectKeyChars ++ encGoString e.Subject
    ++ bodyKeyChars ++ encGoString e.Body ++ ['\x7d'])

/-- (*EmailPayload).ToJSON from src/unnamed/part_009 lines 30-32:
`json.Marshal(e)` (which never fails on this struct, so the Go error
result is constantly nil and is elided). -/
def EmailPayload.ToJSON (e : EmailPayload) : String :=
  String.mk e.toJsonChars

/-! The Go `encoding/json` decoder, as invoked by `json.Unmarshal` into
an `EmailPayload`.  The scanner is modelled as a recursive-descent
parser over the character list.  Number lexemes are consumed loosely
(Go additionally validates number syntax, but a number can never be
assigned to a string field, so both models reject such documents). -/

/-- JSON value tree built by the decoder.  Number lexemes are kept as
raw text: their numeric value is never consulted when decoding into a
struct of string fields. -/
inductive JsonVal where
  | null
  | bool (b : Bool)
  | num (lexeme : String)
  | str (s : String)
  | arr (elems : List JsonVal)
  | obj (members : List (String × JsonVal))

/-- JSON whitespace accepted by the Go scanner. -/
def isJsonWs (c : Char) : Bool :=
  c = ' ' || c = '\t' || c = '\n' || c = '\r'

/-- Skip leading whitespace. -/
def skipWs : List Char → List Char
  | [] => []
  | c :: rest => if isJsonWs c then skipWs rest else c :: rest

/-- Value of a hex digit in a `\uXXXX` escape (getu4 accepts both cases). -/
def hexVal (c : Char) : Option Nat :=
  if '0' ≤ c ∧ c ≤ '9' then some (c.toNat - '0'.toNat)
  else if 'a' ≤ c ∧ c ≤ 'f' then some (c.toNat - 'a'.toNat + 10)
  else if 'A' ≤ c ∧ c ≤ 'F' then some (c.toNat - 'A'.toNat + 10)
  else none

/-- Single-character escapes accepted after a backslash. -/
def simpleEscChar (e : Char) : Option Char :=
  if e = '"' then some '"'
  else if e = '\\' then some '\\'
  else if e = '/' then some '/'
  else if e = 'b' then some '\x08'
  else if e = 'f' then some '\x0c'
  else if e = 'n' then some '\n'
  else if e = 'r' then some '\r'
  else if e = 't' then some '\t'
  else none

/-- Attempt to combine a high surrogate (value `n`) with an immediately
following `\\uXXXX` low-surrogate escape, as the Go decoder does.  On
success the astral character and the input after the second escape; on
failure U+FFFD and the unconsumed input (Go re-scans the next escape). -/
def surrogateNext (n : Nat) (r : List Char) : Char × List Char :=
  match r with
  | b1 :: b2 :: g1 :: g2 :: g3 :: g4 :: r2 =>
    if b1 = '\\' ∧ b2 = 'u' then
      match hexVal g1, hexVal g2, hexVal g3, hexVal g4 with
      | some a2, some b3, some c3, some d2 =>
        let n2 := ((a2 * 16 + b3) * 16 + c3) * 16 + d2
        if 0xDC00 ≤ n2 ∧ n2 ≤ 0xDFFF then
          (Char.ofNat (0x10000 + (n - 0xD800) * 0x400 + (n2 - 0xDC00)), r2)
        else ('�', b1 :: b2 :: g1 :: g2 :: g3 :: g4 :: r2)
      | _, _, _, _ => ('�', b1 :: b2 :: g1 :: g2 :: g3 :: g4 :: r2)
    else ('�', b1 :: b2 :: g1 :: g2 :: g3 :: g4 :: r2)
  | _ => ('�', r)

lemma surrogateNext_length_le (n : Nat) (r : List Char) :
    (surrogateNext n r).2.length ≤ r.length := by
  rcases r with _ | ⟨b1, r⟩
  · simp [surrogateNext]
  rcases r with _ | ⟨b2, r⟩
  · simp [surrogateNext]
  rcases r with _ | ⟨g1, r⟩
  · simp [surrogateNext]
  rcases r with _ | ⟨g2, r⟩
  · simp [surrogateNext]
  rcases r with _ | ⟨g3, r⟩
  · simp [surrogateNext]
  rcases r with _ | ⟨g4, r⟩
  · simp [surrogateNext]
  simp only [surrogateNext]
  repeat' split
  all_goals simp [List.length_cons]
  all_goals omega

/-- One escape sequence after a backslash: the decoded character and
the input remaining after the escape.  `\\uXXXX` values outside the
surrogate range decode directly; a high surrogate consults the
following escape (Go behaviour, see `surrogateNext`); an unpaired low
surrogate decodes to U+FFFD. -/
def escStep (rest : List Char) : Option (Char × List Char) :=
  match rest with
  | [] => none
  | e :: rest2 =>
    if e = 'u' then
      match rest2 with
      | h1 :: h2 :: h3 :: h4 :: r =>
        match hexVal h1, hexVal h2, hexVal h3, hexVal h4 with
        | some a, some b, some c2, some d =>
          let n := ((a * 16 + b) * 16 + c2) * 16 + d
          if n < 0xD800 ∨ 0xE000 ≤ n then some (Char.ofNat n, r)
          else if n ≤ 0xDBFF then some (surrogateNext n r)
          else some ('�', r)
        | _, _, _, _ => none
      | _ => none
    else
      match simpleEscChar e with
      | some d => some (d, rest2)
      | none => none

lemma escStep_length (rest : List Char) (q : Char × List Char)
    (h : escStep rest = some q) : q.2.length < rest.length := by
  rcases rest with _ | ⟨e, rest2⟩
  · simp [escStep] at h
  simp only [escStep] at h
  split at h
  · rcases rest2 with _ | ⟨h1, rest2⟩
    · simp at h
    rcases rest2 with _ | ⟨h2, rest2⟩
    · simp at h
    rcases rest2 with _ | ⟨h3, rest2⟩
    · simp at h
    rcases rest2 with _ | ⟨h4, rest2⟩
    · simp at h
    simp only at h
    split at h
    · split at h
      · cases h
        simp [List.length_cons]
        omega
      split at h
      · cases h
        refine Nat.lt_of_le_of_lt (surrogateNext_length_le _ _) ?_
        simp [List.length_cons]
        omega
      · cases h
        simp [List.length_cons]
        omega
    · cases h
  · split at h
    · cases h
      simp [List.length_cons]
    · cases h

/-- Body of a JSON string literal, after the opening quote: a quote
ends the literal, a backslash starts an escape (see `escStep`), raw
control characters are rejected, anything else is taken literally.
Returns the decoded characters and the input remaining after the
closing quote. -/
def parseStringBody (cs : List Char) : Option (List Char × List Char) :=
  match cs with
  | [] => none
  | c :: rest =>
    if c = '"' then some ([], rest)
    else if c = '\\' then
      match hesc : escStep rest with
      | some q => (parseStringBody q.2).map (fun p => (q.1 :: p.1, p.2))
      | none => none
    else if c.toNat < 0x20 then none
    else (parseStringBody rest).map (fun p => (c :: p.1, p.2))
termination_by cs.length
decreasing_by
  · have := escStep_length rest q hesc
    simp only [List.length_cons]
    omega
  · simp only [List.length_cons]
    omega

/-- Characters that may continue a number lexeme. -/
def isNumChar (c : Char) : Bool :=
  c.isDigit || c = '-' || c = '+' || c = '.' || c = 'e' || c = 'E'

mutual

/-- One JSON value, after optional leading whitespace.  `fuel` bounds the
nesting/positional recursion; callers supply more fuel than the input
length, which always suffices because every recursive step consumes at
least one character. -/
def parseValue : Nat → List Char → Option (JsonVal × List Char)
  | 0, _ => none
  | fuel + 1, cs =>
    match skipWs cs with
    | [] => none
    | c :: rest =>
      if c = '"' then
        (parseStringBody rest).map (fun p => (JsonVal.str (String.mk p.1), p.2))
      else if c = '\x7b' then
        match skipWs rest with
        | [] => none
        | d :: r2 =>
          if d = '\x7d' then some (JsonVal.obj [], r2)
          else (parseMembers fuel (d :: r2)).map (fun p => (JsonVal.obj p.1, p.2))
      else if c = '[' then
        match skipWs rest with
        | [] => none
        | d :: r2 =>
          if d = ']' then some (JsonVal.arr [], r2)
          else (parseElems fuel (d :: r2)).map (fun p => (JsonVal.arr p.1, p.2))
      else if c = 't' then
        match rest with
        | 'r' :: 'u' :: 'e' :: r2 => some (JsonVal.bool true, r2)
        | _ => none
      else if c = 'f' then
        match rest with
        | 'a' :: 'l' :: 's' :: 'e' :: r2 => some (JsonVal.bool false, r2)
        | _ => none
      else if c = 'n' then
        match rest with
        | 'u' :: 'l' :: 'l' :: r2 => some (JsonVal.null, r2)
        | _ => none
      else if c = '-' || c.isDigit then
        let p := List.span isNumChar (c :: rest)
        some (JsonVal.num (String.mk p.1), p.2)
      else none

/-- Members of a JSON object, from the first key up to and including the
closing brace. -/
def parseMembers : Nat → List Char → Option (List (String × JsonVal) × List Char)
  | 0, _ => none
  | fuel + 1, cs =>
    match skipWs cs with
    | [] => none
    | c :: rest =>
      if c = '"' then
        match parseStringBody rest with
        | some (key, r1) =>
          match skipWs r1 with
          | c2 :: r2 =>
            if c2 = ':' then
              match parseValue fuel r2 with
              | some (v, r3) =>
                match skipWs r3 with
                | c3 :: r4 =>
                  if c3 = ',' then
                    (parseMembers fuel r4).map (fun p => ((String.mk key, v) :: p.1, p.2))
                  else if c3 = '\x7d' then some ([(String.mk key, v)], r4)
                  else none
                | [] => none
              | none => none
            else none
          | [] => none
        | none => none
      else none

/-- Elements of a JSON array, up to and including the closing bracket. -/
def parseElems : Nat → List Char → Option (List JsonVal × List Char)
  | 0, _ => none
  | fuel + 1, cs =>
    match parseValue fuel cs with
    | some (v, r1) =>
      match skipWs r1 with
      | c2 :: r2 =>
        if c2 = ',' then (parseElems fuel r2).map (fun p => (v :: p.1, p.2))
        else if c2 = ']' then some ([v], r2)
        else none
      | [] => none
    | none => none

end

/-- ASCII case folding used to match JSON object keys against struct
field tags (Go matches tags case-insensitively via `strings.EqualFold`;
the tags here are plain ASCII, so ASCII folding is exact). -/
def asciiLowerChar (c : Char) : Char :=
  if 'A' ≤ c ∧ c ≤ 'Z' then Char.ofNat (c.toNat + 32) else c

/-- Fold a key for tag comparison. -/
def asciiFold (s : String) : String :=
  String.mk (s.data.map asciiLowerChar)

/-- Object decoding into an EmailPayload: members are processed in
order (a later duplicate key overwrites), a string value is assigned to
the matching field, a null leaves the field unchanged, any other value
type for a known field is a type error, unknown keys are skipped —
exactly the behaviour of `json.Unmarshal` into this struct. -/
def assignEmailFields : List (String × JsonVal) → EmailPayload → Option EmailPayload
  | [], p => some p
  | (k, v) :: rest, p =>
    if asciiFold k = "to" then
      match v with
      | JsonVal.str s => assignEmailFields rest { p with To := s }
      | JsonVal.null => assignEmailFields rest p
      | _ => none
    else if asciiFold k = "subject" then
      match v with
      | JsonVal.str s => assignEmailFields rest { p with Subject := s }
      | JsonVal.null => assignEmailFields rest p
      | _ => none
    else if asciiFold k = "body" then
      match v with
      | JsonVal.str s => assignEmailFields rest { p with Body := s }
      | JsonVal.null => assignEmailFields rest p
      | _ => none
    else assignEmailFields rest p

/-- FromJSON from src/unnamed/part_009 lines 35-41:
`json.Unmarshal(data, &payload)` into a zero-valued EmailPayload.
A top-level null leaves the zero value (Go semantics); any non-object,
non-null top level is a type error; trailing non-whitespace after the
value is an error. -/
def FromJSON (data : String) : Option EmailPayload :=
  match parseValue (data.data.length + 1) data.data with
  | none => none
  | some (v, rest) =>
    if skipWs rest = [] then
      match v with
      | JsonVal.obj members => assignEmailFields members { To := "", Subject := "", Body := "" }
      | JsonVal.null => some { To := "", Subject := "", Body := "" }
      | _ => none
    else none

/-! The Pub/Sub receive wrappers. -/

/-- Acknowledgment operations a message handler can issue on a broker
message. -/
inductive AckDecision where
  | ack
  | nack
deriving DecidableEq

/-- What one delivery of a raw message produced: the `Ack`/`Nack` calls
issued on the message, in order, and whether the payload handler was
invoked. -/
structure ReceiveOutcome where
  issued : List AckDecision
  handlerInvoked : Bool
deriving DecidableEq

/-- Per-message body of (*Client).Receive from
src/internal/pubsub/client.go lines 82-97: unmarshal the message data
into an EmailPayload (Nack and return on failure, without calling the
handler), call the handler (Nack and return on error), then Ack. -/
def clientReceiveMessage (data : String) (handler : EmailPayload → Option String) :
    ReceiveOutcome :=
  match FromJSON data with
  | none => { issued := [AckDecision.nack], handlerInvoked := false }
  | some payload =>
    match handler payload with
    | some _ => { issued := [AckDecision.nack], handlerInvoked := true }
    | none => { issued := [AckDecision.ack], handlerInvoked := true }

/-- ProcessMessage from src/unnamed/part_014 lines 58-75: identical
acknowledgment logic (it decodes via models.FromJSON). -/
def ProcessMessage (data : String) (handler : EmailPayload → Option String) :
    ReceiveOutcome :=
  match FromJSON data with
  | none => { issued := [AckDecision.nack], handlerInvoked := false }
  | some payload =>
    match handler payload with
    | some _ => { issued := [AckDecision.nack], handlerInvoked := true }
    | none => { issued := [AckDecision.ack], handlerInvoked := true }

/-! HTML templates from src/internal/email/templates.go.  The Go
functions build one raw string literal with the parameters spliced in by
string concatenation; the `…LitN` definitions below are those literal
fragments, verbatim. -/
def dfltLit0 : String :=
  "<!doctype html>\n<html lang=\"pt-BR\">\n<head>\n  <meta charset=\"utf-8\">\n  <meta name=\"viewport\" content=\"width=device-width,initial-scale=1\">\n  <title>"

def dfltLit1 : String :=
  "</title>\n  <style>\n    body,table,td \x7bfont-family: Arial, Helvetica, sans-serif; margin:0; padding:0;\x7d\n    img \x7bborder:0; display:block;\x7d\n    a \x7bcolor:#ffffff; text-decoration:none\x7d\n\n    .wrapper \x7bwidth:100%; background:#f0f2f5; padding:30px 0;\x7d\n    .content \x7bmax-width:600px; background:#ffffff; margin:0 auto; border-radius:10px; overflow:hidden; box-shadow:0 4px 12px rgba(0,0,0,0.08)\x7d\n\n    .header \x7bbackground:#1a73e8; padding:30px; text-align:center; color:#fff;\x7d\n    .header h1 \x7bmargin:0; font-size:24px;\x7d\n    .header img \x7bmax-width:200px; height:auto; margin:0 auto 20px auto; display:block; background:#ffffff; padding:10px; border-radius:8px;\x7d\n\n    .body \x7bpadding:30px; color:#333; line-height:1.6;\x7d\n    .body h2 \x7bmargin-top:0; color:#1a73e8;\x7d\n\n    .btn \x7bdisplay:inline-block; background:#1a73e8; padding:12px 20px; border-radius:6px; font-weight:bold; color:#ffffff;\x7d\n"
  ++ "\n    .footer \x7bbackground:#f7f7f7; padding:20px; font-size:12px; text-align:center; color:#666;\x7d\n\n    @media only screen and (max-width:480px) \x7b\n      .header h1 \x7bfont-size:20px;\x7d\n      .body h2 \x7bfont-size:18px;\x7d\n    \x7d\n  </style>\n</head>\n<body>\n  <table role=\"presentation\" class=\"wrapper\" width=\"100%\" cellspacing=\"0\" cellpadding=\"0\">\n    <tr>\n      <td align=\"center\">\n        <table role=\"presentation\" class=\"content\" width=\"100%\" cellspacing=\"0\" cellpadding=\"0\">\n          \n          <!-- Header -->\n          <tr>\n            <td class=\"header\">\n              <img src=\"https://northfi.com.br/img/logoNorthPreto.png\" alt=\""

def dfltLit2 : String :=
  "\" style=\"max-width:200px; height:auto; margin-bottom:20px;\">\n              <h1>"

def dfltLit3 : String :=
  "</h1>\n            </td>\n          </tr>\n\n          <!-- Body -->\n          <tr>\n            <td class=\"body\">\n              <div style=\"white-space: pre-line;\">"

def dfltLit4 : String :=
  "</div>\n            </td>\n          </tr>\n\n          <!-- Footer -->\n          <tr>\n            <td class=\"footer\">\n              <p>Você recebeu este e-mail de "

def dfltLit5 : String :=
  ".</p>\n            </td>\n          </tr>\n\n        </table>\n      </td>\n    </tr>\n  </table>\n</body>\n</html>"

/-- GetDefaultEmailHTML from src/internal/email/templates.go (string splices mirror the Go concatenation). -/
def GetDefaultEmailHTML (subject body companyName : String) : String :=
  dfltLit0 ++ subject ++ dfltLit1 ++ companyName ++ dfltLit2 ++ subject ++ dfltLit3 ++ body ++ dfltLit4 ++ companyName ++ dfltLit5

def welcLit0 : String :=
  "<!doctype html>\n<html lang=\"pt-BR\">\n<head>\n  <meta charset=\"utf-8\">\n  <meta name=\"viewport\" content=\"width=device-width,initial-scale=1\">\n  <title>Bem-vindo</title>\n  <style>\n    body,table,td \x7bfont-family: Arial, Helvetica, sans-serif; margin:0; padding:0;\x7d\n    img \x7bborder:0; display:block;\x7d\n    a \x7bcolor:#ffffff; text-decoration:none\x7d\n\n    .wrapper \x7bwidth:100%; background:#f0f2f5; padding:30px 0;\x7d\n    .content \x7bmax-width:600px; background:#ffffff; margin:0 auto; border-radius:10px; overflow:hidden; box-shadow:0 4px 12px rgba(0,0,0,0.08)\x7d\n\n    .header \x7bbackground:#1a73e8; padding:30px; text-align:center; color:#fff;\x7d\n    .header h1 \x7bmargin:0; font-size:24px;\x7d\n    .header img \x7bmax-width:200px; height:auto; margin:0 auto 20px auto; display:block; background:#ffffff; padding:10px; border-radius:8px;\x7d\n\n    .body \x7bpadding:30px; color:#333; line-height:1.6;\x7d\n"
  ++ "    .body h2 \x7bmargin-top:0; color:#1a73e8;\x7d\n\n    .btn \x7bdisplay:inline-block; background:#1a73e8; padding:12px 20px; border-radius:6px; font-weight:bold; color:#ffffff;\x7d\n\n    .footer \x7bbackground:#f7f7f7; padding:20px; font-size:12px; text-align:center; color:#666;\x7d\n\n    @media only screen and (max-width:480px) \x7b\n      .header h1 \x7bfont-size:20px;\x7d\n      .body h2 \x7bfont-size:18px;\x7d\n    \x7d\n  </style>\n</head>\n<body>\n  <table role=\"presentation\" class=\"wrapper\" width=\"100%\" cellspacing=\"0\" cellpadding=\"0\">\n    <tr>\n      <td align=\"center\">\n        <table role=\"presentation\" class=\"content\" width=\"100%\" cellspacing=\"0\" cellpadding=\"0\">\n          \n          <!-- Header -->\n          <tr>\n            <td class=\"header\">\n              <img src=\"https://northfi.com.br/img/logoNorthPreto.png\" alt=\""

def welcLit1 : String :=
  "\" style=\"max-width:200px; height:auto; margin-bottom:20px;\">\n              <h1>Bem-vindo(a) à "

def welcLit2 : String :=
  "</h1>\n            </td>\n          </tr>\n\n          <!-- Body -->\n          <tr>\n            <td class=\"body\">\n              <h2>Estamos muito felizes em ter você conosco!</h2>\n              <p>Agora você faz parte da nossa comunidade e terá acesso a todas as vantagens que preparamos para você.</p>\n\n              <p>Para começar, recomendamos:</p>\n              <ul>\n                <li>Completar seu perfil;</li>\n                <li>Explorar os recursos principais;</li>\n                <li>Ativar notificações para não perder nenhuma novidade.</li>\n              </ul>\n\n              <p style=\"margin:20px 0; text-align:center;\">\n                <a href=\"https://northfi.com.br\" target=\"_blank\" class=\"btn\">Acessar minha conta</a>\n              </p>\n\n              <p>Se precisar de ajuda, nossa equipe está à disposição. Basta responder este e-mail ou acessar nossa central de suporte.</p>\n"
  ++ "            </td>\n          </tr>\n\n          <!-- Footer -->\n          <tr>\n            <td class=\"footer\">\n              <p>Você recebeu este e-mail porque se cadastrou em "

def welcLit3 : String :=
  ".</p>\n            </td>\n          </tr>\n\n        </table>\n      </td>\n    </tr>\n  </table>\n</body>\n</html>"

/-- GetWelcomeEmailHTML from src/internal/email/templates.go (string splices mirror the Go concatenation). -/
def GetWelcomeEmailHTML (_username companyName : String) : String :=
  welcLit0 ++ companyName ++ welcLit1 ++ companyName ++ welcLit2 ++ companyName ++ welcLit3

def verifLit0 : String :=
  "<!doctype html>\n<html lang=\"pt-BR\">\n<head>\n  <meta charset=\"utf-8\">\n  <meta name=\"viewport\" content=\"width=device-width,initial-scale=1\">\n  <title>Verificação de Email</title>\n  <style>\n    body,table,td \x7bfont-family: Arial, Helvetica, sans-serif; margin:0; padding:0;\x7d\n    img \x7bborder:0; display:block;\x7d\n    a \x7bcolor:#ffffff; text-decoration:none\x7d\n\n    .wrapper \x7bwidth:100%; background:#f0f2f5; padding:30px 0;\x7d\n    .content \x7bmax-width:600px; background:#ffffff; margin:0 auto; border-radius:10px; overflow:hidden; box-shadow:0 4px 12px rgba(0,0,0,0.08)\x7d\n\n    .header \x7bbackground:#1a73e8; padding:30px; text-align:center; color:#fff;\x7d\n    .header h1 \x7bmargin:0; font-size:24px;\x7d\n    .header img \x7bmax-width:200px; height:auto; margin:0 auto 20px auto; display:block; background:#ffffff; padding:10px; border-radius:8px;\x7d\n\n    .body \x7bpadding:30px; color:#333; line-height:1.6;\x7d\n"
  ++ "    .body h2 \x7bmargin-top:0; color:#1a73e8;\x7d\n\n    .btn \x7bdisplay:inline-block; background:#1a73e8; padding:12px 20px; border-radius:6px; font-weight:bold; color:#ffffff !important; text-decoration:none !important; border:none; cursor:pointer;\x7d\n    .btn:hover \x7bbackground:#0d5aa7;\x7d\n\n    .footer \x7bbackground:#f7f7f7; padding:20px; font-size:12px; text-align:center; color:#666;\x7d\n\n    @media only screen and (max-width:480px) \x7b\n      .header h1 \x7bfont-size:20px;\x7d\n      .body h2 \x7bfont-size:18px;\x7d\n    \x7d\n  </style>\n</head>\n<body>\n  <table role=\"presentation\" class=\"wrapper\" width=\"100%\" cellspacing=\"0\" cellpadding=\"0\">\n    <tr>\n      <td align=\"center\">\n        <table role=\"presentation\" class=\"content\" width=\"100%\" cellspacing=\"0\" cellpadding=\"0\">\n          \n          <!-- Header -->\n          <tr>\n            <td class=\"header\">\n"
  ++ "              <img src=\"https://northfi.com.br/img/logoNorthPreto.png\" alt=\""

def verifLit1 : String :=
  "\" style=\"max-width:200px; height:auto; margin-bottom:20px;\">\n              <h1>Verificar Email</h1>\n            </td>\n          </tr>\n\n          <!-- Body -->\n          <tr>\n            <td class=\"body\">\n              <h2>Olá, "

def verifLit2 : String :=
  "!</h2>\n              <p>Para completar seu cadastro na "

def verifLit3 : String :=
  ", precisamos verificar seu endereço de email.</p>\n\n              <p>Clique no botão abaixo para confirmar seu email:</p>\n\n              <p style=\"margin:30px 0; text-align:center;\">\n                <a href=\""

def verifLit4 : String :=
  "\" target=\"_blank\" class=\"btn\" style=\"background:#1a73e8; color:#ffffff; padding:15px 30px; border-radius:6px; font-weight:bold; text-decoration:none; display:inline-block;\">Verificar meu email</a>\n              </p>\n\n              <p>Se você não conseguir clicar no botão, copie e cole o link abaixo no seu navegador:</p>\n              <p style=\"word-break: break-all; color: #666; background: #f8f9fa; padding: 10px; border-radius: 4px; font-family: monospace;\">"

def verifLit5 : String :=
  "</p>\n\n              <p><strong>Este link expira em 24 horas.</strong></p>\n            </td>\n          </tr>\n\n          <!-- Footer -->\n          <tr>\n            <td class=\"footer\">\n              <p>Se você não se cadastrou na "

def verifLit6 : String :=
  ", ignore este email.</p>\n              <p>Este email foi enviado automaticamente, não responda.</p>\n            </td>\n          </tr>\n\n        </table>\n      </td>\n    </tr>\n  </table>\n</body>\n</html>"

/-- GetVerificationEmailHTML from src/internal/email/templates.go (string splices mirror the Go concatenation). -/
def GetVerificationEmailHTML (username companyName verifyURL : String) : String :=
  verifLit0 ++ companyName ++ verifLit1 ++ username ++ verifLit2 ++ companyName ++ verifLit3 ++ verifyURL ++ verifLit4 ++ verifyURL ++ verifLit5 ++ companyName ++ verifLit6

/-! The queue handlers.  Each handler renders content for its payload
kind and sends it through a retry executor.  The delivery client
(`ResendService.SendEmailWithHTML`) is abstracted by a behaviour
`send : Nat → Option String` giving the provider outcome of the i-th
send attempt inside one handler invocation; the rendered request is the
same on every attempt (rendering is pure), so it is recorded once. -/

/-- The arguments a handler passes to SendEmailWithHTML. -/
structure SendRequest where
  toAddr : String
  subject : String
  html : String
deriving DecidableEq

/-- Result of one handler invocation: what it would send, the retry
trace, and the handler's returned Go error (the handlers return the
retry executor's result directly). -/
structure HandlerRun where
  req : SendRequest
  trace : RetryTrace String
deriving DecidableEq

/-- Go `2 * time.Second` in nanoseconds. -/
def twoSeconds : Nat := 2000000000

/-- HandleEmailMessage from src/internal/handlers/queue.go lines 72-91. -/
def HandleEmailMessage (ctx : GoContext) (payload : EmailPayload)
    (send : Nat → Option String) : HandlerRun :=
  let htmlContent := GetDefaultEmailHTML payload.Subject payload.Body ("NorthFi")
  { req := { toAddr := payload.To, subject := payload.Subject, html := htmlContent },
    trace := Retry ctx 3 twoSeconds (fun i =>
      (send i).map (fun e => "failed to send email via Resend: " ++ e)) }

/-- HandleWelcomeEmailMessage from src/internal/handlers/queue.go
lines 103-123. -/
def HandleWelcomeEmailMessage (ctx : GoContext) (payload : EmailPayload)
    (send : Nat → Option String) (userName : String) : HandlerRun :=
  let htmlContent := GetWelcomeEmailHTML userName ("NorthFi")
  { req := { toAddr := payload.To, subject := payload.Subject, html := htmlContent },
    trace := Retry ctx 3 twoSeconds (fun i =>
      (send i).map (fun e => "failed to send welcome email via Resend: " ++ e)) }

/-- HandleVerificationMessage from src/internal/handlers/queue.go
lines 134-159: renders `GetVerificationEmailHTML(payload.Username,
"NorthFi", payload.VerifyURL)` — note the third argument is the
VerifyURL field — with the fixed generated subject. -/
def HandleVerificationMessage (ctx : GoContext) (payload : VerificationEmailPayload)
    (send : Nat → Option String) : HandlerRun :=
  let htmlContent := GetVerificationEmailHTML payload.Username ("NorthFi") payload.VerifyURL
  { req := { toAddr := payload.To, subject := payload.GenerateSubject, html := htmlContent },
    trace := Retry ctx 3 twoSeconds (fun i =>
      (send i).map (fun e => "failed to send verification email via Resend: " ++ e)) }

/-- Result of one user-creation handler invocation: the delegated
welcome send plus the handler's own returned Go error. -/
structure UserHandlerRun where
  req : SendRequest
  trace : RetryTrace String
  err : Option String
deriving DecidableEq

/-- Lines 190-194 of src/internal/handlers/queue.go as a function of the
delegated call's result: a non-nil delegated error is wrapped
(`failed to send welcome email: %w`) and returned, otherwise nil. -/
def handleUserDelegation (delegated : Option String) : Option String :=
  match delegated with
  | some e => some ("failed to send welcome email: " ++ e)
  | none => none

/-- HandleUserMessage from src/internal/handlers/queue.go lines 171-198:
builds the welcome EmailPayload (lines 181-185) and delegates to
HandleWelcomeEmailMessage with the user's name. -/
def HandleUserMessage (ctx : GoContext) (payload : UserPayload)
    (send : Nat → Option String) : UserHandlerRun :=
  let welcomeEmail : EmailPayload :=
    { To := payload.Email,
      Subject := "Bem-vindo(a) à NorthFi!",
      Body := "Olá " ++ payload.Name ++
        ",\n\nSeja bem-vindo(a) à NorthFi! Sua conta foi criada com sucesso.\n\nID do usuário: " ++
        payload.ID ++ "\nEmail: " ++ payload.Email ++
        "\n\nObrigado por se juntar a nós!\n\nEquipe NorthFi" }
  let run := HandleWelcomeEmailMessage ctx welcomeEmail send payload.Name
  { req := run.req, trace := run.trace, err := handleUserDelegation run.trace.result }

namespace EmailQueueHandler

/-- (*EmailQueueHandler).HandleWelcomeMessage from
src/internal/handlers/verification.go lines 127-141 (second document);
its closure does not wrap the send error. -/
def HandleWelcomeMessage (ctx : GoContext) (payload : EmailPayload)
    (send : Nat → Option String) (userName : String) : HandlerRun :=
  let htmlContent := GetWelcomeEmailHTML userName ("NorthFi")
  { req := { toAddr := payload.To, subject := payload.Subject, html := htmlContent },
    trace := retry ctx 3 twoSeconds send ("send_welcome_email") }

/-- Lines 181-185 of src/internal/handlers/verification.go as a function
of the delegated call's result. -/
def handleUserDelegation (payloadID : String) (delegated : Option String) : Option String :=
  match delegated with
  | some e => some ("failed to send welcome email for user " ++ payloadID ++ ": " ++ e)
  | none => none

/-- (*EmailQueueHandler).HandleUserMessage from
src/internal/handlers/verification.go lines 161-189. -/
def HandleUserMessage (ctx : GoContext) (payload : UserPayload)
    (send : Nat → Option String) : UserHandlerRun :=
  let welcomeEmail : EmailPayload :=
    { To := payload.Email,
      Subject := "Bem-vindo(a) à NorthFi!",
      Body := "Olá " ++ payload.Name ++
        ", seja bem-vindo(a) à NorthFi! Sua conta foi criada com sucesso." }
  let run := HandleWelcomeMessage ctx welcomeEmail send payload.Name
  { req := run.req, trace := run.trace,
    err := handleUserDelegation payload.ID run.trace.result }

end EmailQueueHandler

/-! Codec lemmas: the decoder inverts the encoder on every rendered
payload. -/

lemma stringMk_data (s : String) : String.mk s.data = s := rfl

lemma skipWs_cons_not_ws (c : Char) (r : List Char) (h : isJsonWs c = false) :
    skipWs (c :: r) = c :: r := by
  simp [skipWs, h]

lemma hexVal_hexLowerDigit (n : Nat) (h : n < 16) :
    hexVal (hexLowerDigit n) = some n := by
  interval_cases n <;> decide


lemma parseStringBody_quote (tail : List Char) :
    parseStringBody ('"' :: tail) = some ([], tail) := by
  rw [parseStringBody.eq_def]
  simp

lemma parseStringBody_lit (c : Char) (tail : List Char)
    (h1 : ¬ c = '"') (h2 : ¬ c = '\\') (h3 : ¬ c.toNat < 0x20) :
    parseStringBody (c :: tail) =
      (parseStringBody tail).map (fun p => (c :: p.1, p.2)) := by
  rw [parseStringBody.eq_def]
  simp [h1, h2, h3]

lemma parseStringBody_esc (rest : List Char) (q : Char × List Char)
    (h : escStep rest = some q) :
    parseStringBody ('\\' :: rest) =
      (parseStringBody q.2).map (fun p => (q.1 :: p.1, p.2)) := by
  rw [parseStringBody.eq_def]
  simp only [if_neg (by decide : ¬ ('\\' : Char) = '"')]
  split
  · split
    · rename_i q2 heq2
      rw [h] at heq2
      cases heq2
      rfl
    · rename_i heq2
      rw [h] at heq2
      cases heq2
  · rename_i heq
    exact absurd trivial heq

lemma escStep_simple (e d : Char) (tail : List Char)
    (he : ¬ e = 'u') (hd : simpleEscChar e = some d) :
    escStep (e :: tail) = some (d, tail) := by
  simp [escStep, he, hd]

lemma escStep_u (h1 h2 h3 h4 : Char) (v1 v2 v3 v4 : Nat) (tail : List Char)
    (e1 : hexVal h1 = some v1) (e2 : hexVal h2 = some v2)
    (e3 : hexVal h3 = some v3) (e4 : hexVal h4 = some v4)
    (hsmall : ((v1 * 16 + v2) * 16 + v3) * 16 + v4 < 0xD800) :
    escStep ('u' :: h1 :: h2 :: h3 :: h4 :: tail) =
      some (Char.ofNat (((v1 * 16 + v2) * 16 + v3) * 16 + v4), tail) := by
  simp only [escStep, if_pos (rfl : ('u' : Char) = 'u'), e1, e2, e3, e4]
  rw [if_pos (Or.inl hsmall)]
  simp

lemma parseStringBody_enc (l : List Char) (rest : List Char) :
    parseStringBody (l.flatMap encGoChar ++ ('"' :: rest)) = some (l, rest) := by
  induction l with
  | nil =>
    simpa using parseStringBody_quote rest
  | cons c l ih =>
    rw [List.flatMap_cons, List.append_assoc]
    by_cases hq : c = '"'
    · subst hq
      rw [show encGoChar '"' = ['\\', '"'] from by decide]
      rw [List.cons_append, List.cons_append, List.nil_append]
      rw [parseStringBody_esc _ _ (escStep_simple '"' '"' _ (by decide) (by decide)), ih]
      rfl
    by_cases hb : c = '\\'
    · subst hb
      rw [show encGoChar '\\' = ['\\', '\\'] from by decide]
      rw [List.cons_append, List.cons_append, List.nil_append]
      rw [parseStringBody_esc _ _ (escStep_simple '\\' '\\' _ (by decide) (by decide)), ih]
      rfl
    by_cases hn : c = '\n'
    · subst hn
      rw [show encGoChar '\n' = ['\\', 'n'] from by decide]
      rw [List.cons_append, List.cons_append, List.nil_append]
      rw [parseStringBody_esc _ _ (escStep_simple 'n' '\n' _ (by decide) (by decide)), ih]
      rfl
    by_cases hr : c = '\r'
    · subst hr
      rw [show encGoChar '\r' = ['\\', 'r'] from by decide]
      rw [List.cons_append, List.cons_append, List.nil_append]
      rw [parseStringBody_esc _ _ (escStep_simple 'r' '\r' _ (by decide) (by decide)), ih]
      rfl
    by_cases ht : c = '\t'
    · subst ht
      rw [show encGoChar '\t' = ['\\', 't'] from by decide]
      rw [List.cons_append, List.cons_append, List.nil_append]
      rw [parseStringBody_esc _ _ (escStep_simple 't' '\t' _ (by decide) (by decide)), ih]
      rfl
    by_cases hc : c.toNat < 0x20
    · rw [encGoChar]
      rw [if_neg hq, if_neg hb, if_neg hn, if_neg hr, if_neg ht, if_pos hc]
      simp only [List.cons_append, List.nil_append]
      rw [parseStringBody_esc _ _
        (escStep_u '0' '0' _ _ 0 0 (c.toNat / 16) (c.toNat % 16) _
          (by decide) (by decide)
          (hexVal_hexLowerDigit _ (by omega)) (hexVal_hexLowerDigit _ (by omega))
          (by omega)), ih]
      have hv : ((0 * 16 + 0) * 16 + c.toNat / 16) * 16 + c.toNat % 16 = c.toNat := by
        omega
      simp only [hv, Char.ofNat_toNat]
      rfl
    by_cases hlt : c = '<'
    · subst hlt
      rw [show encGoChar '<' = ['\\', 'u', '0', '0', '3', 'c'] from by decide]
      simp only [List.cons_append, List.nil_append]
      rw [parseStringBody_esc _ _
        (escStep_u '0' '0' '3' 'c' 0 0 3 12 _
          (by decide) (by decide) (by decide) (by decide) (by norm_num)), ih]
      simp only [show Char.ofNat (((0 * 16 + 0) * 16 + 3) * 16 + 12) = '<' from by decide]
      rfl
    by_cases hgt : c = '>'
    · subst hgt
      rw [show encGoChar '>' = ['\\', 'u', '0', '0', '3', 'e'] from by decide]
      simp only [List.cons_append, List.nil_append]
      rw [parseStringBody_esc _ _
        (escStep_u '0' '0' '3' 'e' 0 0 3 14 _
          (by decide) (by decide) (by decide) (by decide) (by norm_num)), ih]
      simp only [show Char.ofNat (((0 * 16 + 0) * 16 + 3) * 16 + 14) = '>' from by decide]
      rfl
    by_cases ham : c = '&'
    · subst ham
      rw [show encGoChar '&' = ['\\', 'u', '0', '0', '2', '6'] from by decide]
      simp only [List.cons_append, List.nil_append]
      rw [parseStringBody_esc _ _
        (escStep_u '0' '0' '2' '6' 0 0 2 6 _
          (by decide) (by decide) (by decide) (by decide) (by norm_num)), ih]
      simp only [show Char.ofNat (((0 * 16 + 0) * 16 + 2) * 16 + 6) = '&' from by decide]
      rfl
    by_cases h28 : c.toNat = 0x2028
    · rw [encGoChar]
      rw [if_neg hq, if_neg hb, if_neg hn, if_neg hr, if_neg ht, if_neg hc, if_neg hlt,
        if_neg hgt, if_neg ham, if_pos h28]
      simp only [List.cons_append, List.nil_append]
      rw [parseStringBody_esc _ _
        (escStep_u '2' '0' '2' '8' 2 0 2 8 _
          (by decide) (by decide) (by decide) (by decide) (by norm_num)), ih]
      have hv : ((2 * 16 + 0) * 16 + 2) * 16 + 8 = c.toNat := by omega
      simp only [hv, Char.ofNat_toNat]
      rfl
    by_cases h29 : c.toNat = 0x2029
    · rw [encGoChar]
      rw [if_neg hq, if_neg hb, if_neg hn, if_neg hr, if_neg ht, if_neg hc, if_neg hlt,
        if_neg hgt, if_neg ham, if_neg h28, if_pos h29]
      simp only [List.cons_append, List.nil_append]
      rw [parseStringBody_esc _ _
        (escStep_u '2' '0' '2' '9' 2 0 2 9 _
          (by decide) (by decide) (by decide) (by decide) (by norm_num)), ih]
      have hv : ((2 * 16 + 0) * 16 + 2) * 16 + 9 = c.toNat := by omega
      simp only [hv, Char.ofNat_toNat]
      rfl
    · rw [encGoChar]
      rw [if_neg hq, if_neg hb, if_neg hn, if_neg hr, if_neg ht, if_neg hc, if_neg hlt,
        if_neg hgt, if_neg ham, if_neg h28, if_neg h29]
      rw [List.cons_append, List.nil_append]
      rw [parseStringBody_lit c _ hq hb hc, ih]
      rfl

lemma parseValue_encGoString (g : Nat) (s : String) (rest : List Char) :
    parseValue (g + 1) (encGoString s ++ rest) = some (JsonVal.str s, rest) := by
  have hsh : encGoString s ++ rest = '"' :: (s.data.flatMap encGoChar ++ ('"' :: rest)) := by
    simp [encGoString]
  rw [hsh, parseValue, skipWs_cons_not_ws _ _ (by decide)]
  simp [parseStringBody_enc, stringMk_data]

lemma parseValue_encGoString_any (f : Nat) (hf : 1 ≤ f) (s : String) (rest : List Char) :
    parseValue f (encGoString s ++ rest) = some (JsonVal.str s, rest) := by
  obtain ⟨g, rfl⟩ : ∃ g, f = g + 1 := ⟨f - 1, by omega⟩
  exact parseValue_encGoString g s rest

lemma parseMembers_bodyChunk (f : Nat) (hf : 2 ≤ f) (B : String) :
    parseMembers f
      ('"' :: 'b' :: 'o' :: 'd' :: 'y' :: '"' :: ':' :: (encGoString B ++ ['\x7d'])) =
      some ([("body", JsonVal.str B)], []) := by
  obtain ⟨g, rfl⟩ : ∃ g, f = (g + 1) + 1 := ⟨f - 2, by omega⟩
  rw [parseMembers, skipWs_cons_not_ws _ _ (by decide)]
  simp only [if_pos (rfl : ('"' : Char) = '"')]
  rw [parseStringBody_lit 'b' _ (by decide) (by decide) (by decide),
    parseStringBody_lit 'o' _ (by decide) (by decide) (by decide),
    parseStringBody_lit 'd' _ (by decide) (by decide) (by decide),
    parseStringBody_lit 'y' _ (by decide) (by decide) (by decide),
    parseStringBody_quote]
  simp only [Option.map_some']
  rw [skipWs_cons_not_ws _ _ (by decide)]
  simp only [if_pos (rfl : (':' : Char) = ':')]
  rw [parseValue_encGoString_any (g + 1) (by omega)]
  simp [skipWs, isJsonWs, show String.mk ['b', 'o', 'd', 'y'] = "body" from rfl]

lemma parseMembers_subjectChunk (f : Nat) (hf : 3 ≤ f) (S B : String) :
    parseMembers f
      ('"' :: 's' :: 'u' :: 'b' :: 'j' :: 'e' :: 'c' :: 't' :: '"' :: ':' ::
        (encGoString S ++ (',' :: '"' :: 'b' :: 'o' :: 'd' :: 'y' :: '"' :: ':' ::
          (encGoString B ++ ['\x7d'])))) =
      some ([("subject", JsonVal.str S), ("body", JsonVal.str B)], []) := by
  obtain ⟨g, rfl⟩ : ∃ g, f = (g + 1) + 1 := ⟨f - 2, by omega⟩
  rw [parseMembers, skipWs_cons_not_ws _ _ (by decide)]
  simp only [if_pos (rfl : ('"' : Char) = '"')]
  rw [parseStringBody_lit 's' _ (by decide) (by decide) (by decide),
    parseStringBody_lit 'u' _ (by decide) (by decide) (by decide),
    parseStringBody_lit 'b' _ (by decide) (by decide) (by decide),
    parseStringBody_lit 'j' _ (by decide) (by decide) (by decide),
    parseStringBody_lit 'e' _ (by decide) (by decide) (by decide),
    parseStringBody_lit 'c' _ (by decide) (by decide) (by decide),
    parseStringBody_lit 't' _ (by decide) (by decide) (by decide),
    parseStringBody_quote]
  simp only [Option.map_some']
  rw [skipWs_cons_not_ws _ _ (by decide)]
  simp only [if_pos (rfl : (':' : Char) = ':')]
  rw [parseValue_encGoString_any (g + 1) (by omega)]
  simp only [Option.map_some']
  simp only [skipWs, isJsonWs]
  simp only [show ((',' : Char) = ' ' || (',' : Char) = '\t' || (',' : Char) = '\n' ||
    (',' : Char) = '\r') = false from by decide, Bool.false_eq_true, if_false,
    if_pos (rfl : (',' : Char) = ','), if_true]
  rw [parseMembers_bodyChunk (g + 1) (by omega)]
  simp [show String.mk ['s', 'u', 'b', 'j', 'e', 'c', 't'] = "subject" from rfl]

lemma parseMembers_toChunk (f : Nat) (hf : 4 ≤ f) (T S B : String) :
    parseMembers f
      ('"' :: 't' :: 'o' :: '"' :: ':' ::
        (encGoString T ++ (',' :: '"' :: 's' :: 'u' :: 'b' :: 'j' :: 'e' :: 'c' :: 't' :: '"' :: ':' ::
          (encGoString S ++ (',' :: '"' :: 'b' :: 'o' :: 'd' :: 'y' :: '"' :: ':' ::
            (encGoString B ++ ['\x7d'])))))) =
      some ([("to", JsonVal.str T), ("subject", JsonVal.str S), ("body", JsonVal.str B)], []) := by
  obtain ⟨g, rfl⟩ : ∃ g, f = (g + 1) + 1 := ⟨f - 2, by omega⟩
  rw [parseMembers, skipWs_cons_not_ws _ _ (by decide)]
  simp only [if_pos (rfl : ('"' : Char) = '"')]
  rw [parseStringBody_lit 't' _ (by decide) (by decide) (by decide),
    parseStringBody_lit 'o' _ (by decide) (by decide) (by decide),
    parseStringBody_quote]
  simp only [Option.map_some']
  rw [skipWs_cons_not_ws _ _ (by decide)]
  simp only [if_pos (rfl : (':' : Char) = ':')]
  rw [parseValue_encGoString_any (g + 1) (by omega)]
  simp only [Option.map_some']
  simp only [skipWs, isJsonWs]
  simp only [show ((',' : Char) = ' ' || (',' : Char) = '\t' || (',' : Char) = '\n' ||
    (',' : Char) = '\r') = false from by decide, Bool.false_eq_true, if_false,
    if_pos (rfl : (',' : Char) = ','), if_true]
  rw [parseMembers_subjectChunk (g + 1) (by omega)]
  simp [show String.mk ['t', 'o'] = "to" from rfl]

lemma parseValue_toJsonChars (f : Nat) (hf : 5 ≤ f) (p : EmailPayload) :
    parseValue f p.toJsonChars =
      some (JsonVal.obj [("to", JsonVal.str p.To), ("subject", JsonVal.str p.Subject),
        ("body", JsonVal.str p.Body)], []) := by
  obtain ⟨g, rfl⟩ : ∃ g, f = g + 1 := ⟨f - 1, by omega⟩
  rw [EmailPayload.toJsonChars]
  simp only [toKeyChars, subjectKeyChars, bodyKeyChars, List.append_assoc,
    List.cons_append, List.nil_append]
  rw [parseValue, skipWs_cons_not_ws _ _ (by decide)]
  simp only [if_neg (by decide : ¬ ('\x7b' : Char) = '"'),
    if_pos (rfl : ('\x7b' : Char) = '\x7b')]
  rw [skipWs_cons_not_ws _ _ (by decide)]
  simp only [if_neg (by decide : ¬ ('"' : Char) = '\x7d')]
  rw [parseMembers_toChunk g (by omega)]
  rfl

lemma fromJSON_toJSON (p : EmailPayload) : FromJSON p.ToJSON = some p := by
  cases p with
  | mk T S B =>
    rw [FromJSON]
    have hdata : (EmailPayload.ToJSON ⟨T, S, B⟩).data = (EmailPayload.mk T S B).toJsonChars :=
      rfl
    rw [hdata]
    have hlen : 5 ≤ (EmailPayload.mk T S B).toJsonChars.length + 1 := by
      simp [EmailPayload.toJsonChars, toKeyChars, subjectKeyChars, bodyKeyChars,
        List.length_append, List.length_cons]
    rw [parseValue_toJsonChars _ hlen]
    simp [skipWs, assignEmailFields,
      show asciiFold ("to") = "to" from rfl,
      show asciiFold ("subject") = "subject" from rfl,
      show asciiFold ("body") = "body" from rfl]

/-! Substring containment, used to state what a rendered template does
or does not contain. -/

/-- Does the second list occur at the start of the first? -/
def seqStartsWith : List Char → List Char → Bool
  | _, [] => true
  | [], _ :: _ => false
  | c :: rest, d :: ds => c = d && seqStartsWith rest ds

/-- Does the second list occur contiguously anywhere in the first? -/
def seqContains (hay needle : List Char) : Bool :=
  seqStartsWith hay needle ||
    match hay with
    | [] => false
    | _ :: t => seqContains t needle

/-- Does `needle` occur as a contiguous substring of `hay`? -/
def strContains (hay needle : String) : Bool :=
  seqContains hay.data needle.data



/-- Result of (*EmailQueueHandler).retry is also always nil. -/
lemma emailQueueHandlerRetry_result_none (ctx : GoContext) (maxRetries delay : Nat)
    (fn : Nat → Option ε) (op : String) :
    (EmailQueueHandler.retry ctx maxRetries delay fn op).result = none := by
  cases ctx <;>
    · rw [EmailQueueHandler.retry]
      rw [emailQueueHandlerRetryLoop_eq]
      exact executeWithRetryLoop_result_none fn delay maxRetries 1

/-! The ten claims. -/

/-- C1: for every operation, every maxAttempts ≥ 1 and every delay, both
email.ExecuteWithRetry and handlers.Retry return a nil (non-error)
result — both when some attempt succeeds and when all attempts fail:
the operation's terminal failure is recorded (in the trace) but never
propagated to the caller. -/
theorem C1_retry_executor_returns_nil (ctx : GoContext) (fn : Nat → Option String)
    (maxAttempts delay : Nat) (hmax : 1 ≤ maxAttempts) :
    (ExecuteWithRetry ctx { MaxAttempts := maxAttempts, Delay := delay } fn).result = none ∧
    (Retry ctx maxAttempts delay fn).result = none := by
  constructor
  · cases ctx <;> exact executeWithRetryLoop_result_none fn delay maxAttempts 1
  · exact Retry_result_none ctx maxAttempts delay fn

/-- C1 witness: an operation failing on every attempt, at the production
configuration (3 attempts, 2s). -/
theorem C1_retry_executor_returns_nil_witness :
    1 ≤ 3 ∧
      ((ExecuteWithRetry GoContext.background { MaxAttempts := 3, Delay := 2000000000 }
          (fun _ => some ("provider rejected"))).result = none ∧
        (Retry GoContext.background 3 2000000000
          (fun _ => some ("provider rejected"))).result = none) :=
  ⟨by decide,
    C1_retry_executor_returns_nil GoContext.background
      (fun _ => some ("provider rejected")) 3 2000000000 (by decide)⟩

/-- Operation that succeeds on its first invocation (zero consecutive
failures before first success). -/
def alwaysSucceedOp : Nat → Option String := fun _ => none

/-- C2 counterexample: for an operation that succeeds immediately, the
number of consecutive failures before first success is k = 0, yet
ExecuteWithRetry invokes the operation once — not min(k, maxAttempts)
= min(0, 3) = 0 times as the claim states.  (The spec's own §8 scenario
— fails twice then succeeds, exactly 3 invocations — contradicts the
min(k, maxAttempts) formula in the same way.) -/
theorem C2_counterexample :
    (ExecuteWithRetry GoContext.background { MaxAttempts := 3, Delay := 2000000000 }
      alwaysSucceedOp).calls = 1 ∧
    (ExecuteWithRetry GoContext.background { MaxAttempts := 3, Delay := 2000000000 }
      alwaysSucceedOp).calls ≠ min 0 3 := by
  constructor <;> simp [ExecuteWithRetry, executeWithRetryLoop, alwaysSucceedOp]

/-- C2 (amended): with k the number of consecutive failures before first
success, the executor invokes the operation exactly min(k + 1,
maxAttempts) times — one more than the failure count when it succeeds
within budget — and exactly maxAttempts times when the operation never
succeeds; the inter-attempt waits are exactly one fewer than the
invocations (no wait after the final — in particular a successful —
attempt), each of the fixed delay. -/
theorem C2_attempt_count (ctx : GoContext) (fn : Nat → Option String)
    (maxAttempts delay : Nat) (hmax : 1 ≤ maxAttempts) :
    (∀ k, (∀ i, 1 ≤ i → i ≤ k → fn i ≠ none) → fn (k + 1) = none →
      (ExecuteWithRetry ctx { MaxAttempts := maxAttempts, Delay := delay } fn).calls =
          min (k + 1) maxAttempts ∧
        (ExecuteWithRetry ctx { MaxAttempts := maxAttempts, Delay := delay } fn).waits =
          List.replicate (min (k + 1) maxAttempts - 1) delay) ∧
    ((∀ i, fn i ≠ none) →
      (ExecuteWithRetry ctx { MaxAttempts := maxAttempts, Delay := delay } fn).calls =
          maxAttempts ∧
        (ExecuteWithRetry ctx { MaxAttempts := maxAttempts, Delay := delay } fn).waits =
          List.replicate (maxAttempts - 1) delay) := by
  have hctx : ExecuteWithRetry ctx { MaxAttempts := maxAttempts, Delay := delay } fn =
      executeWithRetryLoop fn delay maxAttempts 1 := by
    cases ctx <;> rfl
  constructor
  · intro k hfail hsucc
    by_cases hk : k + 1 ≤ maxAttempts
    · have hmin : min (k + 1) maxAttempts = k + 1 := by omega
      rw [hctx, executeWithRetryLoop_firstSuccess fn delay maxAttempts (k + 1) hk hsucc 1
        (by omega) (fun i h1 h2 => hfail i h1 (by omega)), hmin]
      constructor
      · simp
      · simp
    · have hmin : min (k + 1) maxAttempts = maxAttempts := by omega
      rw [hctx, executeWithRetryLoop_exhaust fn delay maxAttempts 1 hmax
        (fun i h1 h2 => hfail i h1 (by omega)), hmin]
      constructor
      · simp
      · simp
  · intro hfail
    rw [hctx, executeWithRetryLoop_exhaust fn delay maxAttempts 1 hmax
      (fun i h1 h2 => hfail i)]
    constructor
    · simp
    · simp

/-- Operation that fails twice, then succeeds (the spec's §8 scenario). -/
def failTwiceOp : Nat → Option String := fun i => if i ≤ 2 then some ("boom") else none

/-- C2 witness: the spec's own scenario — fails twice then succeeds with
maxAttempts = 3 — performs exactly min(2 + 1, 3) = 3 invocations and two
2-second waits. -/
theorem C2_attempt_count_witness :
    1 ≤ 3 ∧
      ((ExecuteWithRetry GoContext.background { MaxAttempts := 3, Delay := 2000000000 }
          failTwiceOp).calls = min (2 + 1) 3 ∧
        (ExecuteWithRetry GoContext.background { MaxAttempts := 3, Delay := 2000000000 }
          failTwiceOp).waits = List.replicate (min (2 + 1) 3 - 1) 2000000000) :=
  ⟨by decide,
    (C2_attempt_count GoContext.background failTwiceOp 3 2000000000 (by decide)).1 2
      (fun i h1 h2 => by interval_cases i <;> simp [failTwiceOp])
      (by simp [failTwiceOp])⟩

/-- C3: the receive wrappers issue exactly one acknowledgment per
message: Nack without invoking the handler when decoding fails, Ack
when the handler returns nil, Nack when the handler returns an error —
for both (*Client).Receive (client.go) and email.ProcessMessage. -/
theorem C3_receive_ack_discipline (data : String) (handler : EmailPayload → Option String) :
    (FromJSON data = none →
        clientReceiveMessage data handler =
          { issued := [AckDecision.nack], handlerInvoked := false } ∧
        ProcessMessage data handler =
          { issued := [AckDecision.nack], handlerInvoked := false }) ∧
    (∀ p, FromJSON data = some p → handler p = none →
        clientReceiveMessage data handler =
          { issued := [AckDecision.ack], handlerInvoked := true } ∧
        ProcessMessage data handler =
          { issued := [AckDecision.ack], handlerInvoked := true }) ∧
    (∀ p e, FromJSON data = some p → handler p = some e →
        clientReceiveMessage data handler =
          { issued := [AckDecision.nack], handlerInvoked := true } ∧
        ProcessMessage data handler =
          { issued := [AckDecision.nack], handlerInvoked := true }) ∧
    (clientReceiveMessage data handler).issued.length = 1 ∧
    (ProcessMessage data handler).issued.length = 1 := by
  refine ⟨?_, ?_, ?_, ?_, ?_⟩
  · intro h
    constructor <;> simp [clientReceiveMessage, ProcessMessage, h]
  · intro p hp hh
    constructor <;> simp [clientReceiveMessage, ProcessMessage, hp, hh]
  · intro p e hp hh
    constructor <;> simp [clientReceiveMessage, ProcessMessage, hp, hh]
  · rcases hd : FromJSON data with _ | p
    · simp [clientReceiveMessage, hd]
    · rcases hh : handler p with _ | e <;> simp [clientReceiveMessage, hd, hh]
  · rcases hd : FromJSON data with _ | p
    · simp [ProcessMessage, hd]
    · rcases hh : handler p with _ | e <;> simp [ProcessMessage, hd, hh]

/-- C3 witness: malformed bytes are nacked without a handler call; a
decodable message (`null` decodes to the zero payload, as in Go) is
acked when the handler succeeds and nacked when it errors. -/
theorem C3_receive_ack_discipline_witness :
    clientReceiveMessage ("xyz") (fun _ => none) =
      { issued := [AckDecision.nack], handlerInvoked := false } ∧
    clientReceiveMessage ("null") (fun _ => none) =
      { issued := [AckDecision.ack], handlerInvoked := true } ∧
    clientReceiveMessage ("null") (fun _ => some ("send failed")) =
      { issued := [AckDecision.nack], handlerInvoked := true } :=
  ⟨((C3_receive_ack_discipline ("xyz") (fun _ => none)).1 (by decide)).1,
    ((C3_receive_ack_discipline ("null") (fun _ => none)).2.1
      { To := "", Subject := "", Body := "" } (by decide) rfl).1,
    ((C3_receive_ack_discipline ("null") (fun _ => some ("send failed"))).2.2.1
      { To := "", Subject := "", Body := "" } ("send failed") (by decide) rfl).1⟩

/-- C4: whatever the user-creation payload and however the delivery
operation behaves — in particular when it fails on all three attempts
inside the delegated welcome handler — HandleUserMessage still returns
nil: the delegated HandleWelcomeEmailMessage returns the retry
executor's nil result, so the propagation branch is not taken. -/
theorem C4_user_creation_reports_success (ctx : GoContext) (payload : UserPayload)
    (send : Nat → Option String) (hfail : ∀ i, 1 ≤ i → i ≤ 3 → send i ≠ none) :
    (HandleUserMessage ctx payload send).err = none := by
  simp [HandleUserMessage, HandleWelcomeEmailMessage, handleUserDelegation,
    Retry_result_none]

/-- C4 witness: a send behaviour failing on every attempt. -/
theorem C4_user_creation_reports_success_witness :
    (∀ i, 1 ≤ i → i ≤ 3 → (fun _ : Nat => some ("smtp 550")) i ≠ none) ∧
      (HandleUserMessage GoContext.background
        { ID := "42", Email := "user@example.com", Name := "Maria", Username := "" }
        (fun _ => some ("smtp 550"))).err = none :=
  ⟨fun i _ _ => by simp,
    C4_user_creation_reports_success GoContext.background
      { ID := "42", Email := "user@example.com", Name := "Maria", Username := "" }
      (fun _ => some ("smtp 550")) (fun i _ _ => by simp)⟩

/-- C5 counterexample: there is no delivery behaviour under which the
user-creation handler returns an error — for this concrete payload, no
send behaviour whatsoever makes HandleUserMessage return non-nil,
because the delegated welcome handler returns the retry executor's
always-nil result.  This refutes the claim's assertion that
delivery-failure behaviours exist under which the handler actually does
return an error. -/
theorem C5_counterexample :
    ¬ ∃ send : Nat → Option String,
        (HandleUserMessage GoContext.background
          { ID := "42", Email := "user@example.com", Name := "Maria", Username := "" }
          send).err ≠ none := by
  rintro ⟨send, hne⟩
  exact hne (by simp [HandleUserMessage, HandleWelcomeEmailMessage, handleUserDelegation,
    Retry_result_none])

/-- C5 (amended): the propagation branch is present in both
user-creation handlers — a non-nil delegated result would be wrapped
and returned — but the delegated welcome call never returns an error
(the retry executor swallows all failures), so the handlers always
return nil and no delivery-failure behaviour can trigger negative
acknowledgment through them. -/
theorem C5_user_creation_propagation (ctx : GoContext) (payload : UserPayload)
    (send : Nat → Option String) :
    (∀ e : String, handleUserDelegation (some e) =
      some ("failed to send welcome email: " ++ e)) ∧
    (∀ pid e : String, EmailQueueHandler.handleUserDelegation pid (some e) =
      some ("failed to send welcome email for user " ++ pid ++ ": " ++ e)) ∧
    (HandleUserMessage ctx payload send).err = none ∧
    (EmailQueueHandler.HandleUserMessage ctx payload send).err = none := by
  refine ⟨fun e => rfl, fun pid e => rfl, ?_, ?_⟩
  · simp [HandleUserMessage, HandleWelcomeEmailMessage, handleUserDelegation,
      Retry_result_none]
  · simp [EmailQueueHandler.HandleUserMessage, EmailQueueHandler.HandleWelcomeMessage,
      EmailQueueHandler.handleUserDelegation, emailQueueHandlerRetry_result_none]

/-- C6: verification-payload validation fails whenever both code and
verify_url are empty (even with recipient and username present), and
succeeds exactly when recipient and username are non-empty and at least
one of code/verify_url is non-empty. -/
theorem C6_verification_validate (v : VerificationEmailPayload) :
    ((v.Code = "" ∧ v.VerifyURL = "") → v.Validate ≠ none) ∧
    (v.Validate = none ↔
      (v.To ≠ "" ∧ v.Username ≠ "" ∧ (v.Code ≠ "" ∨ v.VerifyURL ≠ ""))) := by
  unfold VerificationEmailPayload.Validate
  by_cases h1 : v.To = "" <;> by_cases h2 : v.Username = "" <;>
    by_cases h3 : v.Code = "" <;> by_cases h4 : v.VerifyURL = "" <;>
      simp [h1, h2, h3, h4]

/-- C6 witness: both discriminating cases — code and URL both empty is
rejected despite recipient and username being present; a code-only
payload is accepted. -/
theorem C6_verification_validate_witness :
    (VerificationEmailPayload.mk ("a@x.com") ("maria") ("") ("") ("")).Validate ≠ none ∧
    (VerificationEmailPayload.mk ("a@x.com") ("maria") ("") ("123456") ("")).Validate = none :=
  ⟨(C6_verification_validate (VerificationEmailPayload.mk ("a@x.com") ("maria") ("") ("") (""))).1
      ⟨rfl, rfl⟩,
    (C6_verification_validate
        (VerificationEmailPayload.mk ("a@x.com") ("maria") ("") ("123456") (""))).2.mpr
      ⟨by decide, by decide, Or.inl (by decide)⟩⟩

/-- The code-only verification payload on which the rendered e-mail
loses the verification code. -/
def c7Payload : VerificationEmailPayload :=
  { To := "user@example.com", Username := "maria", Token := "", Code := "123456",
    VerifyURL := "" }

set_option maxRecDepth 100000 in
/-- C7 evidence (code bug): the payload is valid and carries only a
code, and the subject is indeed the fixed generated string — but the
handler passes only payload.VerifyURL (here empty) to
GetVerificationEmailHTML and never reads payload.Code, so the rendered
HTML does not contain the code anywhere. -/
theorem C7_verification_code_not_rendered :
    c7Payload.Validate = none ∧
    c7Payload.Code = "123456" ∧
    c7Payload.VerifyURL = "" ∧
    (HandleVerificationMessage GoContext.background c7Payload (fun _ => none)).req.subject =
      "Confirme sua conta - Verificação de Email" ∧
    strContains
      (HandleVerificationMessage GoContext.background c7Payload (fun _ => none)).req.html
      ("123456") = false := by
  refine ⟨by decide, rfl, rfl, rfl, ?_⟩
  show strContains (GetVerificationEmailHTML ("maria") ("NorthFi") ("")) ("123456") = false
  decide

/-- C8: for every EmailPayload with non-empty to, subject and body,
decoding the encoding is the identity: FromJSON (ToJSON p) succeeds and
returns p. -/
theorem C8_json_roundtrip (p : EmailPayload)
    (hto : p.To ≠ "") (hsub : p.Subject ≠ "") (hbody : p.Body ≠ "") :
    FromJSON p.ToJSON = some p :=
  fromJSON_toJSON p

/-- C8 witness: the spec's §8 scenario payload. -/
theorem C8_json_roundtrip_witness :
    (("a@x.com" : String) ≠ "" ∧ ("Bem-vindo" : String) ≠ "" ∧ ("Hi" : String) ≠ "") ∧
      FromJSON (EmailPayload.mk ("a@x.com") ("Bem-vindo") ("Hi")).ToJSON =
        some (EmailPayload.mk ("a@x.com") ("Bem-vindo") ("Hi")) :=
  ⟨⟨by decide, by decide, by decide⟩,
    C8_json_roundtrip (EmailPayload.mk ("a@x.com") ("Bem-vindo") ("Hi"))
      (by decide) (by decide) (by decide)⟩

/-- C9: the retry executors' behaviour is independent of the context
argument: for any two contexts (e.g. one live, one already canceled)
and the same operation, budget and delay, each executor performs the
identical trace — none of them observes cancellation. -/
theorem C9_context_independence (ctx1 ctx2 : GoContext) (config : RetryConfig)
    (maxRetries delay : Nat) (fn : Nat → Option String) (op : String) :
    ExecuteWithRetry ctx1 config fn = ExecuteWithRetry ctx2 config fn ∧
    Retry ctx1 maxRetries delay fn = Retry ctx2 maxRetries delay fn ∧
    EmailQueueHandler.retry ctx1 maxRetries delay fn op =
      EmailQueueHandler.retry ctx2 maxRetries delay fn op := by
  cases ctx1 <;> cases ctx2 <;> exact ⟨rfl, rfl, rfl⟩

/-- C10: the three duplicated retry implementations are extensionally
equivalent up to logging: same attempt budget, delay and
operation-result sequence give the same number of invocations, the same
inter-attempt waits and the same nil result (the traces are equal). -/
theorem C10_retry_implementations_equivalent (ctx : GoContext) (maxAttempts delay : Nat)
    (fn : Nat → Option String) (op : String) :
    ExecuteWithRetry ctx { MaxAttempts := maxAttempts, Delay := delay } fn =
      Retry ctx maxAttempts delay fn ∧
    Retry ctx maxAttempts delay fn =
      EmailQueueHandler.retry ctx maxAttempts delay fn op := by
  constructor
  · cases ctx <;>
      exact (retryHandlersLoop_eq_executeWithRetryLoop fn delay maxAttempts 1).symm
  · cases ctx <;>
      · rw [Retry, EmailQueueHandler.retry, retryHandlersLoop_eq_executeWithRetryLoop,
          emailQueueHandlerRetryLoop_eq]
